import Mathlib

/-!
Verification of the IMHSS client-side dashboard scripts.

Shallow embedding of the notification poller / toast presenter
(src/unnamed/part_000), the breathing and stretching exercise sequencers
(src/static/js/student_dashboard.js) and the form-validation handlers
(src/static/js/registration-form.js, src/unnamed/part_000).

The browser runtime is modelled by explicit inputs (permission state,
availability of the Notification API, which tab is active, the fetch
outcome) and by an explicit list of observable effects (`Event`) that a
handler emits, in program order.
-/

namespace IMHSS

/-- A flagged high-risk message as delivered by `GET /counselor/check-notifications`:
`{ student_name, flagged_at, keywords }`. -/
structure Flag where
  student_name : String
  flagged_at : String
  keywords : List String
deriving DecidableEq

/-- A successfully decoded poll response: `{ count, flags }`. -/
structure PollData where
  count : Nat
  flags : List Flag
deriving DecidableEq

/-- The platform notification-permission state (`Notification.permission`).
`defaultPerm` stands for the browser value "default" (neither granted nor
denied). -/
inductive PermissionState where
  | granted
  | denied
  | defaultPerm
deriving DecidableEq

/-- Observable effects emitted by the handlers, in program order.
`scheduleToast d f` records a `setTimeout(() => showInAppNotification(f), d)`;
`createNotification t f` records a successfully constructed
`new Notification(t, ...)` built from flag `f`; `requestPermission`
records a call to `Notification.requestPermission()`. -/
inductive Event where
  | scheduleToast (delay : Nat) (flag : Flag)
  | requestPermission
  | createNotification (title : String) (flag : Flag)
  | playSound
  | updateBadge (count : Nat)
  | reload
  | logError
  | showModal (title : String)
  | hideEnableButton
  | scheduleTestToast
deriving DecidableEq

/-- `showBrowserNotification(title, flag)` (part_000 lines 334-346): no-op
without the Notification API; with permission "granted" it calls
`createBrowserNotification` at once, which evaluates `flag.student_name`
(part_000 line 350) and therefore throws a TypeError when `flag` is
`undefined` — modelled by the result `none`, which the caller's
`try/catch` observes; with permission neither "granted" nor "denied" it
calls `Notification.requestPermission()` (the asynchronous `.then`
continuation, which may construct the notification later, is outside this
synchronous event list and cannot abort the current poll). -/
def showBrowserNotification (hasAPI : Bool) (perm : PermissionState)
    (title : String) (flag : Option Flag) : Option (List Event) :=
  if !hasAPI then some []
  else
    match perm with
    | .granted =>
      match flag with
      | some f => some [.createNotification title f]
      | none => none
    | .denied => some []
    | .defaultPerm => some [.requestPermission]

/-- `checkForNewNotifications` (part_000 lines 216-255) as a function of the
previous `lastNotificationCount` and the fetch outcome (`none` = transport
or decode failure, caught by the `try/catch`). Returns the new value of
`lastNotificationCount` and the emitted effects in program order. When
`showBrowserNotification` throws (alert fired, `data.flags[0]` undefined,
API present, permission granted), the exception propagates to the same
`catch`: the toast timeouts registered before the throw remain scheduled,
the error is logged, and the sound, badge update, reload check and count
assignment after the throw point are all skipped. -/
def checkForNewNotifications (lastNotificationCount : Nat)
    (result : Option PollData) (hasAPI : Bool) (perm : PermissionState)
    (flaggedTabActive : Bool) : Nat × List Event :=
  match result with
  | none => (lastNotificationCount, [.logError])
  | some data =>
    if data.count > lastNotificationCount ∧ lastNotificationCount > 0 then
      let newFlags := data.count - lastNotificationCount
      let toasts := (data.flags.take newFlags).enum.map
          (fun p => Event.scheduleToast (p.1 * 500) p.2)
      match showBrowserNotification hasAPI perm
          (toString newFlags ++ " New High-Risk Alert(s)") data.flags.head? with
      | none => (lastNotificationCount, toasts ++ [.logError])
      | some browserEvents =>
        let reloadEvents :=
          if flaggedTabActive ∧
              data.count > lastNotificationCount ∧ lastNotificationCount > 0 then
            [Event.reload]
          else []
        (data.count,
          toasts ++ browserEvents ++ [.playSound]
            ++ [Event.updateBadge data.count] ++ reloadEvents)
    else
      (data.count, [Event.updateBadge data.count])

/-- `updateNotificationBadge(count)` (part_000 lines 368-390) acting on the
list of `.notification-badge` elements under the flagged link: the first
existing badge is removed (`querySelector` + `remove`), then, if
`count > 0`, one new badge is appended whose text is `'99+'` when
`count > 99` and the decimal rendering of `count` otherwise. -/
def updateNotificationBadge (badges : List String) (count : Nat) : List String :=
  let afterRemove :=
    match badges with
    | [] => []
    | _ :: rest => rest
  if count > 0 then
    afterRemove ++ [if count > 99 then "99+" else toString count]
  else afterRemove

/-- The enable-notifications click handler (part_000 lines 448-490):
without the Notification API it shows the "Not Supported" modal; otherwise
it awaits `Notification.requestPermission()` and, depending on the user's
answer, shows the success modal, hides the button and schedules the test
toast, or shows the blocked modal. -/
def clickEnableNotifications (hasAPI : Bool) (userGrants : Bool) : List Event :=
  if !hasAPI then [.showModal "Not Supported"]
  else if userGrants then
    [.requestPermission, .showModal "Notifications Enabled!",
     .hideEnableButton, .scheduleTestToast]
  else
    [.requestPermission, .showModal "Notifications Blocked"]

/-- Projection of the schedule: the `(delay, flag)` pairs of the
`scheduleToast` events, in order. -/
def scheduledToasts (evs : List Event) : List (Nat × Flag) :=
  evs.filterMap (fun e =>
    match e with
    | .scheduleToast d f => some (d, f)
    | _ => none)

/-- Events belonging to the alert pipeline (toasts, browser notification
leg, sound), as opposed to the unconditional badge update / reload /
logging. -/
def isAlertEvent : Event → Bool
  | .scheduleToast _ _ => true
  | .requestPermission => true
  | .createNotification _ _ => true
  | .playSound => true
  | _ => false

/-!
Exercise sequencer timers (src/static/js/student_dashboard.js).

A sequencer owns one handle variable (`breathingInterval`, resp.
`stretchingInterval`) and the browser keeps the set of actually running
intervals of that sequencer; overwriting the handle does not stop a
running interval. `setInterval` returns a fresh id; `clearInterval i`
stops the interval with id `i`.
-/

/-- The timer-relevant state of one sequencer: the JS handle variable,
the ids of the intervals of this sequencer the browser is running, and
the next id `setInterval` will hand out. -/
structure SeqState where
  handle : Option Nat
  running : List Nat
  nextId : Nat
deriving DecidableEq

/-- `setInterval(cb, 1000)`: starts a fresh interval and returns its id. -/
def setIntervalS (s : SeqState) : Nat × SeqState :=
  (s.nextId, { s with running := s.running ++ [s.nextId], nextId := s.nextId + 1 })

/-- `clearInterval(i)`: stops the interval with id `i` (no-op if absent). -/
def clearIntervalS (i : Nat) (s : SeqState) : SeqState :=
  { s with running := s.running.filter (fun j => j != i) }

/-- `startBreathingExercise` (student_dashboard.js lines 317-371), timer
part: it assigns `breathingInterval = setInterval(updateBreathing, 1000)`
without clearing any previously stored handle first. -/
def startBreathingExercise (s : SeqState) : SeqState :=
  let p := setIntervalS s
  { p.2 with handle := some p.1 }

/-- `stopBreathingExercise` (student_dashboard.js lines 373-379): clears
the stored handle, if any, and nulls it. -/
def stopBreathingExercise (s : SeqState) : SeqState :=
  match s.handle with
  | some i => { clearIntervalS i s with handle := none }
  | none => s

/-- `displayStretch` (student_dashboard.js lines 439-462), timer part:
`if (stretchingInterval) clearInterval(stretchingInterval)` and then
`stretchingInterval = setInterval(..., 1000)`. -/
def displayStretch (s : SeqState) : SeqState :=
  let s1 :=
    match s.handle with
    | some i => clearIntervalS i s
    | none => s
  let p := setIntervalS s1
  { p.2 with handle := some p.1 }

/-- A sequencer state with no interval running and no handle stored. -/
def seqInit : SeqState := ⟨none, [], 0⟩

/-!
Password strength scoring: `checkPasswordStrength` (part_000 lines
592-618) and `getStrength` (student_dashboard.js lines 573-590). Both
compute the same five-criteria score; they differ in the label table.
-/

/-- `/[a-z]/.test(password)`. -/
def hasLower (p : List Char) : Bool := p.any fun c => 'a' ≤ c && c ≤ 'z'

/-- `/[A-Z]/.test(password)`. -/
def hasUpper (p : List Char) : Bool := p.any fun c => 'A' ≤ c && c ≤ 'Z'

/-- `/\d/.test(password)`. -/
def hasDigit (p : List Char) : Bool := p.any fun c => '0' ≤ c && c ≤ '9'

/-- `/[^a-zA-Z\d]/.test(password)`: some character that is neither an
ASCII letter nor a digit. -/
def hasSymbol (p : List Char) : Bool :=
  p.any fun c =>
    !(('a' ≤ c && c ≤ 'z') || ('A' ≤ c && c ≤ 'Z') || ('0' ≤ c && c ≤ '9'))

/-- The five sequential `strength++` increments shared by both scorers:
length ≥ 8, length ≥ 12, mixed case, digit, symbol. -/
def passwordScore (p : List Char) : Nat :=
  (if p.length ≥ 8 then 1 else 0) +
  (if p.length ≥ 12 then 1 else 0) +
  (if hasLower p && hasUpper p then 1 else 0) +
  (if hasDigit p then 1 else 0) +
  (if hasSymbol p then 1 else 0)

/-- The `{ level, text, color }` record returned by the strength
checkers. -/
structure StrengthResult where
  level : Nat
  text : String
  color : String
deriving DecidableEq

/-- `checkPasswordStrength` (part_000 lines 592-618). The initial
`text = 'Too weak'` of the source is dead: the `if` chain covers every
score (≤ 1 weak, 2 fair, 3 good, ≥ 4 strong). -/
def checkPasswordStrength (password : String) : StrengthResult :=
  let strength := passwordScore password.data
  if strength ≤ 1 then ⟨strength, "Weak password", "#f56565"⟩
  else if strength = 2 then ⟨strength, "Fair password", "#ed8936"⟩
  else if strength = 3 then ⟨strength, "Good password", "#ecc94b"⟩
  else ⟨strength, "Strong password", "#48bb78"⟩

/-- The `levels` table of `getStrength` (student_dashboard.js lines
581-588). -/
def strengthLevels : List (String × String) :=
  [("Too short", "#e53e3e"), ("Weak", "#f56565"), ("Fair", "#ed8936"),
   ("Good", "#ecc94b"), ("Strong", "#48bb78"), ("Very strong", "#38a169")]

/-- `getStrength` (student_dashboard.js lines 573-590):
`{ score, ...levels[Math.min(score, 5)] }`. The `getD` default is never
reached since `min score 5 < 6`. -/
def getStrength (pw : String) : StrengthResult :=
  let score := passwordScore pw.data
  let lv := strengthLevels.getD (min score 5) ("Too short", "#e53e3e")
  ⟨score, lv.1, lv.2⟩

/-!
Form submission validation: the registration form handler
(registration-form.js lines 232-317) and the password-change form handler
(part_000 lines 621-639). Submission is "prevented" when the handler
calls `e.preventDefault()`.
-/

/-- The registration submit handler's `isValid` flag after the three check
blocks, given the required fields' values and the optional counselor
password fields (`document.getElementById` misses on pages without them).
It starts `true`, the required loop lowers it on any trim-empty field, the
match check lowers it when both password fields exist and differ, the
length check lowers it when the password field exists and is shorter than
8. -/
def regFormIsValid (required : List String) (passwordField : Option String)
    (confirmPasswordField : Option String) : Bool :=
  let v1 := required.foldl (fun acc f => if f.trim = "" then false else acc) true
  let v2 :=
    match passwordField, confirmPasswordField with
    | some p, some c => if p ≠ c then false else v1
    | _, _ => v1
  match passwordField with
  | some p => if p.length < 8 then false else v2
  | none => v2

/-- The registration submit handler prevents submission exactly when
`isValid` ended up `false` (`if (!isValid) e.preventDefault()`). -/
def regSubmitPrevented (required : List String) (passwordField : Option String)
    (confirmPasswordField : Option String) : Bool :=
  !(regFormIsValid required passwordField confirmPasswordField)

/-- The password-change form handler (part_000 lines 623-638): prevents on
mismatch, else on a new password shorter than 8 characters. -/
def passwordFormPrevented (newPassword confirmPassword : String) : Bool :=
  if newPassword ≠ confirmPassword then true
  else if newPassword.length < 8 then true
  else false

/-!
Concrete example data used by the witnesses.
-/

/-- A concrete flag. -/
def exFlagA : Flag := ⟨"Ada", "2026-10-01T10:00:00Z", ["kw1", "kw2"]⟩

/-- Another concrete flag. -/
def exFlagB : Flag := ⟨"Ben", "2026-10-01T11:00:00Z", ["kw3"]⟩


/-- `showBrowserNotification` throws (result `none`) exactly when the
Notification API is present, permission is granted, and the flag argument
was `undefined`. -/
theorem showBrowserNotification_eq_none_iff (hasAPI : Bool)
    (perm : PermissionState) (title : String) (flag : Option Flag) :
    showBrowserNotification hasAPI perm title flag = none ↔
      hasAPI = true ∧ perm = PermissionState.granted ∧ flag = none := by
  cases hasAPI <;> cases perm <;> cases flag <;> simp [showBrowserNotification]

/-- Claim C4 is false as stated: at previous count 1 and the decoded
response `{count: 2, flags: []}` with the Notification API present and
permission granted, the fetch and decode succeed, yet
`createBrowserNotification` throws a TypeError on `flag.student_name`
(part_000 line 350) inside the poll's `try`, so the error is logged and
`lastNotificationCount` stays 1 instead of being set to 2. -/
theorem poll_count_retained_corner :
    (checkForNewNotifications 1 (some ⟨2, []⟩) true
      PermissionState.granted false).1 ≠ 2 ∧
    (checkForNewNotifications 1 (some ⟨2, []⟩) true
      PermissionState.granted false).1 = 1 ∧
    Event.logError ∈
      (checkForNewNotifications 1 (some ⟨2, []⟩) true
        PermissionState.granted false).2 := by
  decide

/-- Claim C4 amended: a successful poll ends by setting
`lastNotificationCount` to the newly fetched count, even when no alert
fired, except when the mid-pipeline TypeError occurs (alert trigger with
an empty flags list while the Notification API is present and permission
is granted): then, as on a fetch or decode failure, the error is caught
and logged and the count keeps its previous value. -/
theorem poll_updates_count_and_failure_noop (prev : Nat) (data : PollData)
    (hasAPI : Bool) (perm : PermissionState) (tab : Bool) :
    (¬((data.count > prev ∧ prev > 0) ∧ hasAPI = true ∧
        perm = PermissionState.granted ∧ data.flags = []) →
      (checkForNewNotifications prev (some data) hasAPI perm tab).1 = data.count) ∧
    (((data.count > prev ∧ prev > 0) ∧ hasAPI = true ∧
        perm = PermissionState.granted ∧ data.flags = []) →
      (checkForNewNotifications prev (some data) hasAPI perm tab).1 = prev ∧
        Event.logError ∈
          (checkForNewNotifications prev (some data) hasAPI perm tab).2) ∧
    checkForNewNotifications prev none hasAPI perm tab = (prev, [Event.logError]) := by
  refine ⟨?_, ?_, rfl⟩
  · intro hn
    by_cases h : data.count > prev ∧ prev > 0
    · simp only [checkForNewNotifications, if_pos h]
      cases hsb : showBrowserNotification hasAPI perm
          (toString (data.count - prev) ++ " New High-Risk Alert(s)")
          data.flags.head? with
      | none =>
        rw [showBrowserNotification_eq_none_iff, List.head?_eq_none_iff] at hsb
        exact absurd ⟨h, hsb⟩ hn
      | some bevs => rfl
    · simp only [checkForNewNotifications, if_neg h]
  · intro hc
    simp only [checkForNewNotifications, if_pos hc.1]
    have hsb : showBrowserNotification hasAPI perm
        (toString (data.count - prev) ++ " New High-Risk Alert(s)")
        data.flags.head? = none := by
      rw [showBrowserNotification_eq_none_iff, List.head?_eq_none_iff]
      exact hc.2
    rw [hsb]
    simp [hc.2.2.2]

/-- Claim C4 amended witness: at previous count 1 and response
`{count: 3, flags: [exFlagA, exFlagB]}` with permission granted, the
corner does not occur and the count is set to 3. -/
theorem poll_updates_count_witness :
    ¬(((3 : Nat) > 1 ∧ (1 : Nat) > 0) ∧ true = true ∧
        PermissionState.granted = PermissionState.granted ∧
        ([exFlagA, exFlagB] : List Flag) = []) ∧
    (checkForNewNotifications 1 (some ⟨3, [exFlagA, exFlagB]⟩) true
      PermissionState.granted false).1 = 3 :=
  ⟨by decide,
    (poll_updates_count_and_failure_noop 1 ⟨3, [exFlagA, exFlagB]⟩ true
      PermissionState.granted false).1 (by decide)⟩

/-- Claim C1 is false as stated: at previous count 1 and the decoded
response `{count: 2, flags: []}` with the Notification API present and
permission granted, the trigger newCount > prev > 0 holds, yet no toast,
sound or browser notification fires and not even the badge updates: the
TypeError thrown on `flag.student_name` (part_000 line 350) aborts the
pipeline to the `catch`, which only logs the error. -/
theorem alert_pipeline_empty_flags_corner :
    ((1 : Nat) < 2 ∧ (0 : Nat) < 1) ∧
    (checkForNewNotifications 1 (some ⟨2, []⟩) true
      PermissionState.granted false).2 = [Event.logError] ∧
    Event.playSound ∉
      (checkForNewNotifications 1 (some ⟨2, []⟩) true
        PermissionState.granted false).2 := by
  decide

/-- Claim C1 amended: on a successful poll, the alert pipeline (staggered
toasts, browser-notification leg, sound) fires iff the fetched count is
strictly greater than the previous count and the previous count is
strictly positive, except in the corner where the response carries no
flags while the Notification API is present with permission granted:
there the pipeline aborts with the TypeError before the sound, and the
emitted events are exactly the logged error (no badge update either).
When the trigger fails (cold start with previous count 0, or a decrease),
the emitted events are exactly the badge update and nothing from the
alert pipeline. -/
theorem alert_pipeline_fires_iff (prev : Nat) (data : PollData) (hasAPI : Bool)
    (perm : PermissionState) (tab : Bool) :
    (Event.playSound ∈ (checkForNewNotifications prev (some data) hasAPI perm tab).2 ↔
      (data.count > prev ∧ prev > 0) ∧
        ¬(hasAPI = true ∧ perm = PermissionState.granted ∧ data.flags = [])) ∧
    (¬(data.count > prev ∧ prev > 0) →
      (checkForNewNotifications prev (some data) hasAPI perm tab).2 =
        [Event.updateBadge data.count]) ∧
    (∀ e ∈ (checkForNewNotifications prev (some data) hasAPI perm tab).2,
      isAlertEvent e = true → data.count > prev ∧ prev > 0) ∧
    ((data.count > prev ∧ prev > 0) ∧ hasAPI = true ∧
        perm = PermissionState.granted ∧ data.flags = [] →
      (checkForNewNotifications prev (some data) hasAPI perm tab).2 =
        [Event.logError]) := by
  by_cases h : data.count > prev ∧ prev > 0
  · simp only [checkForNewNotifications, if_pos h]
    cases hsb : showBrowserNotification hasAPI perm
        (toString (data.count - prev) ++ " New High-Risk Alert(s)")
        data.flags.head? with
    | none =>
      rw [showBrowserNotification_eq_none_iff, List.head?_eq_none_iff] at hsb
      refine ⟨?_, fun hn => absurd h hn, ?_, fun _ => ?_⟩
      · simp [hsb, h]
      · intro e he ha
        rw [hsb.2.2] at he
        simp at he
        subst he
        simp [isAlertEvent] at ha
      · rw [hsb.2.2]
        simp
    | some bevs =>
      have hnc : ¬(hasAPI = true ∧ perm = PermissionState.granted ∧
          data.flags = []) := by
        intro hc
        rw [(showBrowserNotification_eq_none_iff hasAPI perm _
          data.flags.head?).mpr ⟨hc.1, hc.2.1, List.head?_eq_none_iff.mpr hc.2.2⟩]
          at hsb
        exact Option.noConfusion hsb
      refine ⟨?_, fun hn => absurd h hn, fun e he ha => h,
        fun hc => absurd ⟨hc.2.1, hc.2.2.1, hc.2.2.2⟩ hnc⟩
      simp [h, hnc]
  · simp only [checkForNewNotifications, if_neg h]
    refine ⟨?_, fun _ => by simp, ?_, fun hc => absurd hc.1 h⟩
    · simp [h]
    · intro e he ha
      simp at he
      subst he
      simp [isAlertEvent] at ha


/-- Claim C2 is false as stated: the polling pipeline itself invokes
`Notification.requestPermission()` with no user click involved.
Concretely, with previous count 1, fetched count 2, the Notification API
present and permission state "default", `checkForNewNotifications` calls
`showBrowserNotification`, which calls `requestPermission()`
(part_000 lines 339-344). -/
theorem poll_auto_requests_permission :
    Event.requestPermission ∈
      (checkForNewNotifications 1 (some ⟨2, [exFlagA]⟩) true
        PermissionState.defaultPerm false).2 := by decide

/-- Claim C2 amended: the polling pipeline invokes `requestPermission`
exactly when an alert fires (fetched count > previous count > 0), the
Notification API is present, and the permission state is neither granted
nor denied; a failed poll never invokes it; besides that, the
enable-notifications click handler invokes it whenever the API is
present. -/
theorem requestPermission_trigger_characterization (prev : Nat) (data : PollData)
    (hasAPI : Bool) (perm : PermissionState) (tab : Bool) (userGrants : Bool) :
    (Event.requestPermission ∈
        (checkForNewNotifications prev (some data) hasAPI perm tab).2 ↔
      prev < data.count ∧ 0 < prev ∧ hasAPI = true ∧
        perm = PermissionState.defaultPerm) ∧
    Event.requestPermission ∉
      (checkForNewNotifications prev none hasAPI perm tab).2 ∧
    Event.requestPermission ∈ clickEnableNotifications true userGrants := by
  refine ⟨?_, by simp [checkForNewNotifications], ?_⟩
  · by_cases h : data.count > prev ∧ prev > 0
    · simp only [checkForNewNotifications, if_pos h]
      cases hasAPI <;> cases perm <;> cases hfl : data.flags <;>
        simp [showBrowserNotification, hfl, h.1, h.2, List.mem_map]
    · simp only [checkForNewNotifications, if_neg h]
      simp
      intro hc hp
      exact absurd ⟨hc, hp⟩ h
  · cases userGrants <;> simp [clickEnableNotifications]

/-- Claim C3 is false as stated for the breathing sequencer:
`startBreathingExercise` installs a new interval without cancelling a
previously active one (no `clearInterval` before the `setInterval` at
student_dashboard.js line 370). Starting twice from the initial state
leaves both interval 0 and interval 1 running: two breathing timers at
once. -/
theorem breathing_start_does_not_cancel :
    (startBreathingExercise (startBreathingExercise seqInit)).running = [0, 1] ∧
    (startBreathingExercise (startBreathingExercise seqInit)).running.length = 2 := by
  decide

/-- Claim C3 amended: the stretching sequencer does cancel: `displayStretch`
clears any previously stored stretching interval before installing the new
one, so from a consistent state (the running intervals are exactly the
stored handle) it preserves consistency and leaves at most one stretching
timer running; the breathing sequencer does not cancel: every
`startBreathingExercise` increases the number of running breathing
intervals by one (only `stopBreathingExercise` cancels). -/
theorem sequencer_timer_discipline (s : SeqState)
    (hinv : s.running = s.handle.toList) :
    (displayStretch s).running = (displayStretch s).handle.toList ∧
    (displayStretch s).running.length ≤ 1 ∧
    (startBreathingExercise s).running.length = s.running.length + 1 := by
  cases hh : s.handle with
  | none =>
    simp [displayStretch, startBreathingExercise, setIntervalS, clearIntervalS, hh,
      hinv]
  | some i =>
    have : s.running = [i] := by rw [hinv, hh]; rfl
    simp [displayStretch, startBreathingExercise, setIntervalS, clearIntervalS, hh,
      this]

/-- Witness for the amended claim C3 at the concrete state with handle 5,
running interval 5 and next id 6. -/
theorem sequencer_timer_discipline_witness :
    (([5] : List Nat) = (Option.some 5).toList) ∧
    ((displayStretch ⟨some 5, [5], 6⟩).running =
        (displayStretch ⟨some 5, [5], 6⟩).handle.toList ∧
      (displayStretch ⟨some 5, [5], 6⟩).running.length ≤ 1 ∧
      (startBreathingExercise ⟨some 5, [5], 6⟩).running.length =
        ([5] : List Nat).length + 1) :=
  ⟨by decide, sequencer_timer_discipline ⟨some 5, [5], 6⟩ (by decide)⟩


/-- `scheduledToasts` distributes over append. -/
theorem scheduledToasts_append (l1 l2 : List Event) :
    scheduledToasts (l1 ++ l2) = scheduledToasts l1 ++ scheduledToasts l2 :=
  List.filterMap_append _ _ _

/-- A non-throwing browser-notification leg schedules no toast. -/
theorem scheduledToasts_showBrowserNotification (hasAPI : Bool)
    (perm : PermissionState) (title : String) (flag : Option Flag)
    (bevs : List Event)
    (h : showBrowserNotification hasAPI perm title flag = some bevs) :
    scheduledToasts bevs = [] := by
  cases hasAPI <;> cases perm <;> cases flag <;>
    simp [showBrowserNotification] at h <;> subst h <;> rfl

/-- A logged error schedules no toast. -/
theorem scheduledToasts_logError (l : List Event) :
    scheduledToasts (Event.logError :: l) = scheduledToasts l := rfl

/-- `scheduledToasts` recovers the `(delay, flag)` pairs of a pure toast
block. -/
theorem scheduledToasts_map_scheduleToast (l : List (Nat × Flag)) :
    scheduledToasts (l.map fun p => Event.scheduleToast (p.1 * 500) p.2) =
      l.map fun p => (p.1 * 500, p.2) := by
  induction l with
  | nil => rfl
  | cons x t ih =>
    simp only [List.map_cons, scheduledToasts, List.filterMap_cons] at ih ⊢
    rw [ih]

/-- A sound event schedules no toast. -/
theorem scheduledToasts_playSound (l : List Event) :
    scheduledToasts (Event.playSound :: l) = scheduledToasts l := rfl

/-- A badge event schedules no toast. -/
theorem scheduledToasts_updateBadge (n : Nat) (l : List Event) :
    scheduledToasts (Event.updateBadge n :: l) = scheduledToasts l := rfl

/-- A reload event schedules no toast. -/
theorem scheduledToasts_reload (l : List Event) :
    scheduledToasts (Event.reload :: l) = scheduledToasts l := rfl

/-- The empty event list schedules no toast. -/
theorem scheduledToasts_nil : scheduledToasts [] = [] := rfl

/-- On an alerting poll, the schedule is exactly the first `delta` flags,
enumerated with delay `index * 500`. -/
theorem scheduledToasts_poll (prev : Nat) (data : PollData) (hasAPI : Bool)
    (perm : PermissionState) (tab : Bool)
    (h : data.count > prev ∧ prev > 0) :
    scheduledToasts (checkForNewNotifications prev (some data) hasAPI perm tab).2 =
      (data.flags.take (data.count - prev)).enum.map (fun p => (p.1 * 500, p.2)) := by
  simp only [checkForNewNotifications, if_pos h]
  cases hsb : showBrowserNotification hasAPI perm
      (toString (data.count - prev) ++ " New High-Risk Alert(s)")
      data.flags.head? with
  | none =>
    simp [scheduledToasts_append, scheduledToasts_map_scheduleToast,
      scheduledToasts_logError, scheduledToasts_nil]
  | some bevs =>
    by_cases h2 : tab = true ∧ data.count > prev ∧ prev > 0 <;>
      simp [h2, scheduledToasts_append,
        scheduledToasts_showBrowserNotification hasAPI perm _ _ bevs hsb,
        scheduledToasts_map_scheduleToast, scheduledToasts_playSound,
        scheduledToasts_updateBadge, scheduledToasts_reload, scheduledToasts_nil]


/-- Claim C5: when a poll detects `delta` new flags (fetched count >
previous count > 0), the i-th scheduled toast, for every i below
min(delta, number of returned flags), presents the i-th flag of the
response with a delay of exactly 500 ms times i. -/
theorem toast_stagger (prev : Nat) (data : PollData) (hasAPI : Bool)
    (perm : PermissionState) (tab : Bool)
    (hc : prev < data.count) (hp : 0 < prev) :
    ∀ i : Nat, i < min (data.count - prev) data.flags.length →
      (scheduledToasts
          (checkForNewNotifications prev (some data) hasAPI perm tab).2).get? i
        = (data.flags.get? i).map (fun f => (500 * i, f)) := by
  intro i hi
  rw [scheduledToasts_poll prev data hasAPI perm tab ⟨hc, hp⟩]
  rw [List.get?_map, List.get?_enum,
    List.get?_take (lt_of_lt_of_le hi (min_le_left _ _))]
  cases data.flags.get? i <;> simp [Nat.mul_comm]

/-- Witness for claim C5: previous count 1, fetched count 3, two flags;
the second toast (index 1) is scheduled at 500 ms with the second flag. -/
theorem toast_stagger_witness :
    1 < 3 ∧ 0 < 1 ∧
    1 < min (3 - 1) ([exFlagA, exFlagB] : List Flag).length ∧
    (scheduledToasts
        (checkForNewNotifications 1 (some ⟨3, [exFlagA, exFlagB]⟩) true
          PermissionState.granted false).2).get? 1
      = (([exFlagA, exFlagB] : List Flag).get? 1).map (fun f => (500 * 1, f)) :=
  ⟨by decide, by decide, by decide,
    toast_stagger 1 ⟨3, [exFlagA, exFlagB]⟩ true PermissionState.granted false
      (by decide) (by decide) 1 (by decide)⟩

/-- Claim C9: the number of toasts actually scheduled equals
min(delta, number of returned flags), and every scheduled toast presents
one of the returned flags; a response shorter than delta just yields fewer
toasts. -/
theorem toast_count_min (prev : Nat) (data : PollData) (hasAPI : Bool)
    (perm : PermissionState) (tab : Bool)
    (hc : prev < data.count) (hp : 0 < prev) :
    (scheduledToasts
        (checkForNewNotifications prev (some data) hasAPI perm tab).2).length
      = min (data.count - prev) data.flags.length ∧
    ∀ p ∈ scheduledToasts
        (checkForNewNotifications prev (some data) hasAPI perm tab).2,
      p.2 ∈ data.flags := by
  rw [scheduledToasts_poll prev data hasAPI perm tab ⟨hc, hp⟩]
  constructor
  · simp [List.enum_length, List.length_take]
  · intro p hp2
    simp only [List.mem_map] at hp2
    obtain ⟨q, hq, rfl⟩ := hp2
    rw [List.mem_enum_iff_get?] at hq
    exact List.take_subset _ _ (List.get?_mem hq)

/-- Witness for claim C9: previous count 1, fetched count 5 (delta 4) but
only two returned flags; exactly min(4, 2) = 2 toasts are scheduled. -/
theorem toast_count_min_witness :
    1 < 5 ∧ 0 < 1 ∧
    (scheduledToasts
        (checkForNewNotifications 1 (some ⟨5, [exFlagA, exFlagB]⟩) true
          PermissionState.granted false).2).length
      = min (5 - 1) ([exFlagA, exFlagB] : List Flag).length ∧
    ∀ p ∈ scheduledToasts
        (checkForNewNotifications 1 (some ⟨5, [exFlagA, exFlagB]⟩) true
          PermissionState.granted false).2,
      p.2 ∈ ([exFlagA, exFlagB] : List Flag) :=
  ⟨by decide, by decide,
    (toast_count_min 1 ⟨5, [exFlagA, exFlagB]⟩ true PermissionState.granted false
      (by decide) (by decide)).1,
    (toast_count_min 1 ⟨5, [exFlagA, exFlagB]⟩ true PermissionState.granted false
      (by decide) (by decide)).2⟩


/-- An indicator summand never decreases when its criterion only gets
easier to satisfy. -/
theorem indicator_le_of_imp {c1 c2 : Prop} [Decidable c1] [Decidable c2]
    (h : c1 → c2) :
    (if c1 then 1 else 0) ≤ (if c2 then 1 else 0) := by
  by_cases h1 : c1
  · rw [if_pos h1, if_pos (h h1)]
  · rw [if_neg h1]
    exact Nat.zero_le _

/-- A satisfied `any` criterion stays satisfied after appending. -/
theorem any_append_left {f : Char → Bool} {p : List Char} (s : List Char)
    (h : p.any f = true) : (p ++ s).any f = true := by
  simp [List.any_append, h]

/-- The five-criteria score never decreases under appending characters. -/
theorem passwordScore_le_append (p s : List Char) :
    passwordScore p ≤ passwordScore (p ++ s) := by
  unfold passwordScore
  have hlen : p.length ≤ (p ++ s).length := by simp
  refine Nat.add_le_add (Nat.add_le_add (Nat.add_le_add (Nat.add_le_add
    ?_ ?_) ?_) ?_) ?_
  · exact indicator_le_of_imp fun h => le_trans h hlen
  · exact indicator_le_of_imp fun h => le_trans h hlen
  · refine indicator_le_of_imp fun h => ?_
    rw [Bool.and_eq_true] at h ⊢
    exact ⟨any_append_left s h.1, any_append_left s h.2⟩
  · exact indicator_le_of_imp fun h => any_append_left s h
  · exact indicator_le_of_imp fun h => any_append_left s h

/-- The five-criteria score is at most 5. -/
theorem passwordScore_le_five (p : List Char) : passwordScore p ≤ 5 := by
  unfold passwordScore
  split_ifs <;> omega

/-- The returned `level` field is the raw score. -/
theorem checkPasswordStrength_level (s : String) :
    (checkPasswordStrength s).level = passwordScore s.data := by
  simp only [checkPasswordStrength]
  split_ifs <;> rfl

/-- Every in-range index of the `levels` table yields one of the six
defined labels. -/
theorem strengthLevels_getD_text_mem :
    ∀ n < 6, (strengthLevels.getD n ("Too short", "#e53e3e")).1 ∈
      (["Too short", "Weak", "Fair", "Good", "Strong", "Very strong"] :
        List String) := by
  decide

/-- Claim C6: the password-strength score never decreases when characters
are appended (in particular when an appended character satisfies a
previously unmet criterion), every score is at most 5, and the score
deterministically yields one of the defined labels, both for
`checkPasswordStrength` and for `getStrength`. -/
theorem password_strength_monotone_bounded (p s : List Char) :
    (checkPasswordStrength (String.mk p)).level ≤
      (checkPasswordStrength (String.mk (p ++ s))).level ∧
    (checkPasswordStrength (String.mk p)).level ≤ 5 ∧
    (checkPasswordStrength (String.mk p)).text ∈
      (["Weak password", "Fair password", "Good password", "Strong password"] :
        List String) ∧
    (getStrength (String.mk p)).text ∈
      (["Too short", "Weak", "Fair", "Good", "Strong", "Very strong"] :
        List String) := by
  refine ⟨?_, ?_, ?_, ?_⟩
  · rw [checkPasswordStrength_level, checkPasswordStrength_level]
    exact passwordScore_le_append p s
  · rw [checkPasswordStrength_level]
    exact passwordScore_le_five p
  · simp only [checkPasswordStrength]
    split_ifs <;> simp
  · exact strengthLevels_getD_text_mem _
      (Nat.lt_succ_of_le (min_le_right (passwordScore p) 5))

/-- Claim C7: `checkPasswordStrength("abc")` scores 0 with the weak-tier
label ("Weak password"); "Abcdef12!" satisfies the length >= 8, mixed-case,
digit and symbol criteria and scores 4 with the strong label ("Strong
password" in `checkPasswordStrength`, exactly "Strong" in `getStrength`). -/
theorem password_strength_examples :
    (checkPasswordStrength "abc").level = 0 ∧
    (checkPasswordStrength "abc").text = "Weak password" ∧
    "Abcdef12!".data.length ≥ 8 ∧
    hasLower "Abcdef12!".data = true ∧
    hasUpper "Abcdef12!".data = true ∧
    hasDigit "Abcdef12!".data = true ∧
    hasSymbol "Abcdef12!".data = true ∧
    (checkPasswordStrength "Abcdef12!").level = 4 ∧
    (checkPasswordStrength "Abcdef12!").text = "Strong password" ∧
    (getStrength "Abcdef12!").level = 4 ∧
    (getStrength "Abcdef12!").text = "Strong" := by
  decide


/-- The required-fields loop leaves `isValid` true iff it started true and
no required field is empty after trimming. -/
theorem regFold_eq_true (l : List String) (b : Bool) :
    (l.foldl (fun acc f => if f.trim = "" then false else acc) b = true) ↔
      (b = true ∧ ∀ f ∈ l, ¬(f.trim = "")) := by
  induction l generalizing b with
  | nil => simp
  | cons x t ih =>
    simp only [List.foldl_cons]
    rw [ih]
    by_cases hx : x.trim = "" <;> simp [hx]

/-- `regFormIsValid` with both counselor password fields present. -/
theorem regFormIsValid_iff (required : List String) (p c : String) :
    regFormIsValid required (some p) (some c) = true ↔
      ((∀ v ∈ required, ¬(v.trim = "")) ∧ p = c ∧ ¬(p.length < 8)) := by
  have hdef : regFormIsValid required (some p) (some c) =
      (if p.length < 8 then false
       else if p ≠ c then false
       else required.foldl (fun acc f => if f.trim = "" then false else acc) true) :=
    rfl
  rw [hdef]
  by_cases h2 : p.length < 8
  · simp [h2]
  · by_cases h1 : p = c
    · subst h1
      rw [if_neg h2, if_neg (by simp : ¬ p ≠ p), regFold_eq_true]
      simp [h2]
    · simp [h2, h1]

/-- Claim C8: the registration submit handler (with both counselor
password fields present) prevents submission exactly when some required
field is empty after trimming, the two password fields differ, or the
password is shorter than 8 characters; the password-change handler, whose
only client-checked fields are the two passwords, prevents exactly on
mismatch or a password shorter than 8. -/
theorem form_submission_blocking (required : List String) (p c : String) :
    (regSubmitPrevented required (some p) (some c) = true ↔
      (∃ v ∈ required, v.trim = "") ∨ p ≠ c ∨ p.length < 8) ∧
    (passwordFormPrevented p c = true ↔ p ≠ c ∨ p.length < 8) := by
  constructor
  · rw [regSubmitPrevented, Bool.not_eq_true', Bool.eq_false_iff, Ne,
      regFormIsValid_iff]
    constructor
    · intro h
      by_cases ha : ∀ v ∈ required, ¬(v.trim = "")
      · by_cases hb : p = c
        · by_cases hl : p.length < 8
          · exact Or.inr (Or.inr hl)
          · exact absurd ⟨ha, hb, hl⟩ h
        · exact Or.inr (Or.inl hb)
      · push_neg at ha
        exact Or.inl ha
    · rintro (⟨v, hv, he⟩ | hb | hl) ⟨ha, hb2, hl2⟩
      · exact (ha v hv) he
      · exact hb hb2
      · exact hl2 hl
  · simp only [passwordFormPrevented]
    split_ifs <;> simp_all

/-- Claim C10: starting from at most one displayed badge, a badge update
with count n leaves no badge when n = 0, one badge with the decimal
rendering of n when 0 < n <= 99, and one badge with the literal text
"99+" when n > 99; the previous badge is removed first, so at most one
badge ever exists. -/
theorem badge_rendering (badges : List String) (n : Nat)
    (h : badges.length ≤ 1) :
    (updateNotificationBadge badges n).length ≤ 1 ∧
    (n = 0 → updateNotificationBadge badges n = []) ∧
    (0 < n → n ≤ 99 → updateNotificationBadge badges n = [toString n]) ∧
    (99 < n → updateNotificationBadge badges n = ["99+"]) := by
  have hrem : (match badges with | [] => ([] : List String) | _ :: rest => rest) = [] := by
    cases badges with
    | nil => rfl
    | cons b t =>
      simp only [List.length_cons] at h
      have : t = [] := List.length_eq_zero.mp (by omega)
      simp [this]
  simp only [updateNotificationBadge, hrem]
  refine ⟨?_, ?_, ?_, ?_⟩
  · split_ifs <;> simp
  · intro h0
    simp [h0]
  · intro h1 h2
    rw [if_pos h1, if_neg (by omega : ¬ n > 99)]
    simp
  · intro h1
    rw [if_pos (by omega : n > 0), if_pos h1]
    simp

/-- Witness for claim C10 at one existing badge and count 100. -/
theorem badge_rendering_witness :
    (["3"] : List String).length ≤ 1 ∧
    ((updateNotificationBadge ["3"] 100).length ≤ 1 ∧
      (100 = 0 → updateNotificationBadge ["3"] 100 = []) ∧
      (0 < 100 → 100 ≤ 99 → updateNotificationBadge ["3"] 100 = [toString 100]) ∧
      (99 < 100 → updateNotificationBadge ["3"] 100 = ["99+"])) :=
  ⟨by decide, badge_rendering ["3"] 100 (by decide)⟩

end IMHSS
